import Mathlib

/-!
# AquaSave — Flow Simulator & Leak Detector, shallow embedding

A shallow embedding of the simulation logic of `src/src/App.jsx`
(the AquaSave prototype): the per-tick flow generator, bounded history,
volume accumulator, consecutive-high-reading leak detector, and the two
user actions `acknowledgeAlert` / `resetDay`.

Modelling decisions:
* `Math.random()` is modelled as an arbitrary rational `q` with
  `0 ≤ q < 1`; the generated flow `Math.floor(Math.random() * span) + base`
  becomes `⌊q * span⌋ + base : ℤ`.
* JS numbers used for the volume accumulator are modelled as exact
  rationals (the spec formula `flow * (tickIntervalMs / 60000)` is exact
  arithmetic there).
* The timestamp label produced by `toLocaleTimeString` is an opaque
  `String` supplied by the environment as a parameter of `tick`.
* React state cells (`currentFlow`, `totalLiters`, `labels`, `series`,
  `leakDetected`, `forceLeak`) and the mutable ref `highCountRef` are
  collected into one record `AppState`; each operation is a pure state
  transformer.
-/

namespace AquaSave

/-- `TICK_MS = 2000` (src/src/App.jsx line 11). -/
def TICK_MS : ℚ := 2000

/-- `LEAK_THRESHOLD = 8` L/min (line 12). -/
def LEAK_THRESHOLD : ℤ := 8

/-- `LEAK_CONSEC_TICKS = 3` (line 13). -/
def LEAK_CONSEC_TICKS : ℕ := 3

/-- `MAX_POINTS = 30` (line 14). -/
def MAX_POINTS : ℕ := 30

/-- The component state: React `useState` cells plus the `highCountRef`
mutable ref of `App` (lines 17–24). -/
structure AppState where
  currentFlow : ℤ
  totalLiters : ℚ
  labels : List String
  series : List ℤ
  leakDetected : Bool
  forceLeak : Bool
  highCount : ℕ
deriving Repr, DecidableEq

/-- The initial state at component mount (lines 17–23): all cells
zeroed/empty/false. -/
def initState : AppState :=
  { currentFlow := 0, totalLiters := 0, labels := [], series := [],
    leakDetected := false, forceLeak := false, highCount := 0 }

/-- Flow generation (lines 37–39):
`base = forceLeak ? 11 : 1`, `span = forceLeak ? 3 : 12`,
`flow = Math.floor(Math.random() * span) + base`, with the random draw
modelled as `q : ℚ`. -/
def genFlow (forceLeak : Bool) (q : ℚ) : ℤ :=
  let base : ℤ := if forceLeak then 11 else 1
  let span : ℚ := if forceLeak then 3 else 12
  ⌊q * span⌋ + base

/-- The bounded-history push used for both `series` and `labels`
(lines 43–56): `next = [...prev, x]`, and when `next.length > MAX_POINTS`
take `next.slice(-MAX_POINTS)`, i.e. the last `MAX_POINTS` elements. -/
def pushCapped {α : Type} (prev : List α) (x : α) : List α :=
  let next := prev ++ [x]
  if next.length > MAX_POINTS then next.drop (next.length - MAX_POINTS) else next

/-- One simulation tick (lines 33–72), parameterised by the random draw
`q` and the current-time label `ts`:
generate `flow`, push it (and the label) onto the bounded history,
accumulate `totalLiters += flow * (TICK_MS / 60000)`, then run the leak
rule: `flow > LEAK_THRESHOLD` increments `highCount`, otherwise resets it
to 0, and `highCount ≥ LEAK_CONSEC_TICKS` sets `leakDetected` (it is never
set to false by a tick). -/
def tick (s : AppState) (q : ℚ) (ts : String) : AppState :=
  let flow := genFlow s.forceLeak q
  let series' := pushCapped s.series flow
  let labels' := pushCapped s.labels ts
  let total' := s.totalLiters + (flow : ℚ) * (TICK_MS / 60000)
  let hc := if flow > LEAK_THRESHOLD then s.highCount + 1 else 0
  let leak := if hc ≥ LEAK_CONSEC_TICKS then true else s.leakDetected
  { s with currentFlow := flow, series := series', labels := labels',
           totalLiters := total', highCount := hc, leakDetected := leak }

/-- `acknowledgeAlert` (lines 119–122): `setLeakDetected(false)` and
`highCountRef.current = 0`. -/
def acknowledgeAlert (s : AppState) : AppState :=
  { s with leakDetected := false, highCount := 0 }

/-- `resetDay` (lines 124–130): clears `series`, `labels`, `totalLiters`,
`leakDetected` and `highCount`; touches nothing else. -/
def resetDay (s : AppState) : AppState :=
  { s with series := [], labels := [], totalLiters := 0,
           leakDetected := false, highCount := 0 }

/-- Folding a whole tick sequence: each list element is one tick's
random draw paired with its timestamp label. -/
def runTicks (s : AppState) (ds : List (ℚ × String)) : AppState :=
  ds.foldl (fun st d => tick st d.1 d.2) s

/-! ## Projection lemmas for `tick` -/

theorem tick_currentFlow (s : AppState) (q : ℚ) (ts : String) :
    (tick s q ts).currentFlow = genFlow s.forceLeak q := rfl

theorem tick_forceLeak (s : AppState) (q : ℚ) (ts : String) :
    (tick s q ts).forceLeak = s.forceLeak := rfl

theorem tick_totalLiters (s : AppState) (q : ℚ) (ts : String) :
    (tick s q ts).totalLiters
      = s.totalLiters + (genFlow s.forceLeak q : ℚ) * (TICK_MS / 60000) := rfl

theorem tick_series (s : AppState) (q : ℚ) (ts : String) :
    (tick s q ts).series = pushCapped s.series (genFlow s.forceLeak q) := rfl

theorem tick_labels (s : AppState) (q : ℚ) (ts : String) :
    (tick s q ts).labels = pushCapped s.labels ts := rfl

theorem tick_highCount (s : AppState) (q : ℚ) (ts : String) :
    (tick s q ts).highCount
      = if LEAK_THRESHOLD < genFlow s.forceLeak q then s.highCount + 1 else 0 := rfl

theorem tick_leakDetected (s : AppState) (q : ℚ) (ts : String) :
    (tick s q ts).leakDetected
      = if LEAK_CONSEC_TICKS ≤ (tick s q ts).highCount then true
        else s.leakDetected := rfl

/-! ## Flow-generator bounds -/

theorem genFlow_eq_false (q : ℚ) : genFlow false q = ⌊q * 12⌋ + 1 := by
  simp [genFlow]

theorem genFlow_eq_true (q : ℚ) : genFlow true q = ⌊q * 3⌋ + 11 := by
  simp [genFlow]

theorem genFlow_false_bounds (q : ℚ) (h0 : 0 ≤ q) (h1 : q < 1) :
    1 ≤ genFlow false q ∧ genFlow false q ≤ 12 := by
  rw [genFlow_eq_false]
  have hge : (0 : ℤ) ≤ ⌊q * 12⌋ :=
    Int.le_floor.mpr (by push_cast; exact mul_nonneg h0 (by norm_num))
  have hlt : ⌊q * 12⌋ < 12 := Int.floor_lt.mpr (by push_cast; linarith)
  omega

theorem genFlow_true_bounds (q : ℚ) (h0 : 0 ≤ q) (h1 : q < 1) :
    11 ≤ genFlow true q ∧ genFlow true q ≤ 13 := by
  rw [genFlow_eq_true]
  have hge : (0 : ℤ) ≤ ⌊q * 3⌋ :=
    Int.le_floor.mpr (by push_cast; exact mul_nonneg h0 (by norm_num))
  have hlt : ⌊q * 3⌋ < 3 := Int.floor_lt.mpr (by push_cast; linarith)
  omega

theorem genFlow_true_high (q : ℚ) (h0 : 0 ≤ q) :
    LEAK_THRESHOLD < genFlow true q := by
  rw [genFlow_eq_true]
  have hge : (0 : ℤ) ≤ ⌊q * 3⌋ :=
    Int.le_floor.mpr (by push_cast; exact mul_nonneg h0 (by norm_num))
  simp only [LEAK_THRESHOLD]
  omega

theorem genFlow_pos (b : Bool) (q : ℚ) (h0 : 0 ≤ q) : 0 < genFlow b q := by
  cases b
  · have hge : (0 : ℤ) ≤ ⌊q * 12⌋ :=
      Int.le_floor.mpr (by push_cast; exact mul_nonneg h0 (by norm_num))
    rw [genFlow_eq_false]; omega
  · have hge : (0 : ℤ) ≤ ⌊q * 3⌋ :=
      Int.le_floor.mpr (by push_cast; exact mul_nonneg h0 (by norm_num))
    rw [genFlow_eq_true]; omega

/-! ## Bounded-history lemmas -/

theorem pushCapped_eq_drop {α : Type} (prev : List α) (x : α) :
    pushCapped prev x = (prev ++ [x]).drop (prev.length + 1 - MAX_POINTS) := by
  show (if (prev ++ [x]).length > MAX_POINTS
        then List.drop ((prev ++ [x]).length - MAX_POINTS) (prev ++ [x])
        else prev ++ [x])
      = List.drop (prev.length + 1 - MAX_POINTS) (prev ++ [x])
  split
  · rename_i h
    congr 1
    simp [List.length_append]
  · rename_i h
    have h0 : prev.length + 1 - MAX_POINTS = 0 := by
      simp [List.length_append] at h
      omega
    rw [h0, List.drop_zero]

theorem pushCapped_length {α : Type} (prev : List α) (x : α) :
    (pushCapped prev x).length = min (prev.length + 1) MAX_POINTS := by
  rw [pushCapped_eq_drop, List.length_drop]
  simp [List.length_append]
  omega

theorem pushCapped_length_le {α : Type} (prev : List α) (x : α) :
    (pushCapped prev x).length ≤ MAX_POINTS := by
  rw [pushCapped_length]
  omega

/-! ## Volume monotonicity -/

theorem tick_totalLiters_mono (s : AppState) (q : ℚ) (ts : String) (h0 : 0 ≤ q) :
    s.totalLiters ≤ (tick s q ts).totalLiters := by
  rw [tick_totalLiters]
  have hf : (0 : ℚ) ≤ (genFlow s.forceLeak q : ℚ) := by
    exact_mod_cast (genFlow_pos s.forceLeak q h0).le
  have hr : (0 : ℚ) ≤ TICK_MS / 60000 := by norm_num [TICK_MS]
  nlinarith

theorem runTicks_totalLiters_mono (s : AppState) (ds : List (ℚ × String))
    (h : ∀ d ∈ ds, 0 ≤ d.1) :
    s.totalLiters ≤ (runTicks s ds).totalLiters := by
  induction ds generalizing s with
  | nil => simp [runTicks]
  | cons d ds ih =>
    have hd : 0 ≤ d.1 := h d (List.mem_cons_self d ds)
    have hstep : s.totalLiters ≤ (tick s d.1 d.2).totalLiters :=
      tick_totalLiters_mono s d.1 d.2 hd
    have htail : (tick s d.1 d.2).totalLiters ≤ (runTicks (tick s d.1 d.2) ds).totalLiters :=
      ih (tick s d.1 d.2) (fun e he => h e (List.mem_cons_of_mem d he))
    calc s.totalLiters ≤ (tick s d.1 d.2).totalLiters := hstep
      _ ≤ (runTicks (tick s d.1 d.2) ds).totalLiters := htail
      _ = (runTicks s (d :: ds)).totalLiters := rfl

/-! ## The claims -/

/-- C1: on every tick, a flow strictly above `LEAK_THRESHOLD` increments
`highCount` and any other flow (threshold included) resets it to 0; the
leak flag is set exactly when the resulting count reaches
`LEAK_CONSEC_TICKS` (and otherwise keeps its old value). In particular,
with threshold 8 and 3 consecutive ticks, the draw sequence producing
flows [9, 10, 9] leaves `leakDetected = true` after the third tick, while
the sequence producing [9, 10, 5] never sets it. -/
theorem C1_leak_rule :
    (∀ (s : AppState) (q : ℚ) (ts : String),
      (tick s q ts).highCount
        = if LEAK_THRESHOLD < genFlow s.forceLeak q then s.highCount + 1 else 0) ∧
    (∀ (s : AppState) (q : ℚ) (ts : String),
      ((tick s q ts).leakDetected = true
        ↔ LEAK_CONSEC_TICKS ≤ (tick s q ts).highCount ∨ s.leakDetected = true)) ∧
    (genFlow false (2/3) = 9 ∧ genFlow false (3/4) = 10 ∧ genFlow false (1/3) = 5) ∧
    (runTicks initState [(2/3, "t1"), (3/4, "t2"), (2/3, "t3")]).leakDetected = true ∧
    ((runTicks initState [(2/3, "t1")]).leakDetected = false ∧
     (runTicks initState [(2/3, "t1"), (3/4, "t2")]).leakDetected = false ∧
     (runTicks initState [(2/3, "t1"), (3/4, "t2"), (1/3, "t3")]).leakDetected = false) := by
  refine ⟨fun s q ts => tick_highCount s q ts, fun s q ts => ?_, ⟨?_, ?_, ?_⟩, ?_, ?_, ?_, ?_⟩
  · rw [tick_leakDetected]
    by_cases h : LEAK_CONSEC_TICKS ≤ (tick s q ts).highCount
    · simp [h]
    · simp [h]
  · norm_num [genFlow]
  · norm_num [genFlow]
  · norm_num [genFlow]
  · norm_num [runTicks, tick, genFlow, pushCapped, initState,
      LEAK_THRESHOLD, LEAK_CONSEC_TICKS, MAX_POINTS, TICK_MS, List.foldl]
  · norm_num [runTicks, tick, genFlow, pushCapped, initState,
      LEAK_THRESHOLD, LEAK_CONSEC_TICKS, MAX_POINTS, TICK_MS, List.foldl]
  · norm_num [runTicks, tick, genFlow, pushCapped, initState,
      LEAK_THRESHOLD, LEAK_CONSEC_TICKS, MAX_POINTS, TICK_MS, List.foldl]
  · norm_num [runTicks, tick, genFlow, pushCapped, initState,
      LEAK_THRESHOLD, LEAK_CONSEC_TICKS, MAX_POINTS, TICK_MS, List.foldl]

/-- C2 (counterexample): `acknowledgeAlert` is not the only operation that
clears the leak flag — `resetDay` applied to a flagged state also sets
`leakDetected = false`, and `resetDay` is a genuinely different operation
(here it zeroes `totalLiters = 5`, which `acknowledgeAlert` preserves). -/
theorem C2_resetDay_also_clears :
    (resetDay { initState with leakDetected := true, totalLiters := 5 }).leakDetected = false ∧
    (resetDay { initState with leakDetected := true, totalLiters := 5 }).totalLiters = 0 ∧
    (acknowledgeAlert { initState with leakDetected := true, totalLiters := 5 }).totalLiters = 5 :=
  ⟨rfl, rfl, rfl⟩

/-- C2 (amended): once `leakDetected` is true, no tick ever sets it back to
false; `acknowledgeAlert` clears it and simultaneously resets `highCount`
to 0; `resetDay` also clears it (as part of clearing the whole day). -/
theorem C2_leak_flag_sticky :
    (∀ (s : AppState) (q : ℚ) (ts : String),
      s.leakDetected = true → (tick s q ts).leakDetected = true) ∧
    (∀ s : AppState,
      (acknowledgeAlert s).leakDetected = false ∧ (acknowledgeAlert s).highCount = 0) ∧
    (∀ s : AppState, (resetDay s).leakDetected = false) := by
  refine ⟨fun s q ts h => ?_, fun s => ⟨rfl, rfl⟩, fun s => rfl⟩
  rw [tick_leakDetected]
  split
  · rfl
  · exact h

/-- C2 (witness): a concretely flagged state stays flagged through a tick. -/
theorem C2_leak_flag_sticky_witness :
    ({ initState with leakDetected := true } : AppState).leakDetected = true ∧
    (tick { initState with leakDetected := true } 0 "t").leakDetected = true :=
  ⟨rfl, C2_leak_flag_sticky.1 { initState with leakDetected := true } 0 "t" rfl⟩

/-- C3: for every value of the random draw `q ∈ [0, 1)`, the flow generated
in normal mode lies in `[1, 12]` and the flow generated in forced-leak mode
lies in `[11, 13]`; and the flow a tick stores in `currentFlow` is exactly
`genFlow` of the state's mode and the draw. -/
theorem C3_flow_range (q : ℚ) (h0 : 0 ≤ q) (h1 : q < 1) :
    (1 ≤ genFlow false q ∧ genFlow false q ≤ 12) ∧
    (11 ≤ genFlow true q ∧ genFlow true q ≤ 13) ∧
    (∀ (s : AppState) (ts : String), (tick s q ts).currentFlow = genFlow s.forceLeak q) :=
  ⟨genFlow_false_bounds q h0 h1, genFlow_true_bounds q h0 h1,
   fun s ts => tick_currentFlow s q ts⟩

/-- C3 (witness): the bounds instantiated at the concrete draw `q = 0`. -/
theorem C3_flow_range_witness :
    (0 : ℚ) ≤ 0 ∧ (0 : ℚ) < 1 ∧
    (1 ≤ genFlow false 0 ∧ genFlow false 0 ≤ 12) ∧
    (11 ≤ genFlow true 0 ∧ genFlow true 0 ≤ 13) :=
  ⟨le_refl 0, zero_lt_one,
   (C3_flow_range 0 (le_refl 0) zero_lt_one).1,
   (C3_flow_range 0 (le_refl 0) zero_lt_one).2.1⟩

/-- C4: after any tick both history sequences have length at most
`MAX_POINTS`; the tick appends the new sample at the back and drops just
enough of the oldest elements from the front (FIFO, order preserved);
`acknowledgeAlert` leaves the history untouched and `resetDay` empties it. -/
theorem C4_history_bounded (s : AppState) (q : ℚ) (ts : String) :
    (tick s q ts).series.length ≤ MAX_POINTS ∧
    (tick s q ts).labels.length ≤ MAX_POINTS ∧
    (tick s q ts).series
      = (s.series ++ [genFlow s.forceLeak q]).drop (s.series.length + 1 - MAX_POINTS) ∧
    (tick s q ts).labels
      = (s.labels ++ [ts]).drop (s.labels.length + 1 - MAX_POINTS) ∧
    (acknowledgeAlert s).series = s.series ∧
    (acknowledgeAlert s).labels = s.labels ∧
    (resetDay s).series = [] ∧
    (resetDay s).labels = [] := by
  refine ⟨?_, ?_, ?_, ?_, rfl, rfl, rfl, rfl⟩
  · rw [tick_series]; exact pushCapped_length_le s.series (genFlow s.forceLeak q)
  · rw [tick_labels]; exact pushCapped_length_le s.labels ts
  · rw [tick_series]; exact pushCapped_eq_drop s.series (genFlow s.forceLeak q)
  · rw [tick_labels]; exact pushCapped_eq_drop s.labels ts

/-- C5: each tick adds exactly `flow * (TICK_MS / 60000)` liters to
`totalLiters`, the L/min rate converted to liters over one tick interval,
and nothing else. -/
theorem C5_volume_accumulation (s : AppState) (q : ℚ) (ts : String) :
    (tick s q ts).totalLiters
      = s.totalLiters + (genFlow s.forceLeak q : ℚ) * (TICK_MS / 60000) :=
  tick_totalLiters s q ts

/-- C6: along any sequence of ticks whose random draws are nonnegative,
`totalLiters` never decreases; immediately after `resetDay` it is exactly 0. -/
theorem C6_volume_monotone :
    (∀ (s : AppState) (ds : List (ℚ × String)),
      (∀ d ∈ ds, 0 ≤ d.1) → s.totalLiters ≤ (runTicks s ds).totalLiters) ∧
    (∀ s : AppState, (resetDay s).totalLiters = 0) :=
  ⟨runTicks_totalLiters_mono, fun s => rfl⟩

/-- C6 (witness): monotonicity instantiated on the concrete one-tick
sequence with draw 0 from the initial state. -/
theorem C6_volume_monotone_witness :
    (∀ d ∈ [((0 : ℚ), "t")], 0 ≤ d.1) ∧
    initState.totalLiters ≤ (runTicks initState [((0 : ℚ), "t")]).totalLiters := by
  have h : ∀ d ∈ [((0 : ℚ), "t")], 0 ≤ d.1 := by simp
  exact ⟨h, C6_volume_monotone.1 initState [((0 : ℚ), "t")] h⟩

/-- C7: `resetDay` empties both history sequences, zeroes `totalLiters`,
clears `leakDetected`, resets `highCount` to 0, and leaves the forced-leak
toggle unchanged. -/
theorem C7_resetDay_frame (s : AppState) :
    (resetDay s).series = [] ∧
    (resetDay s).labels = [] ∧
    (resetDay s).totalLiters = 0 ∧
    (resetDay s).leakDetected = false ∧
    (resetDay s).highCount = 0 ∧
    (resetDay s).forceLeak = s.forceLeak :=
  ⟨rfl, rfl, rfl, rfl, rfl, rfl⟩

/-- C8: `acknowledgeAlert` clears `leakDetected` and `highCount` and changes
no other field; when the flag is already false and the count already 0 it is
a no-op on the whole state. -/
theorem C8_acknowledgeAlert_frame (s : AppState) :
    (acknowledgeAlert s).leakDetected = false ∧
    (acknowledgeAlert s).highCount = 0 ∧
    (acknowledgeAlert s).currentFlow = s.currentFlow ∧
    (acknowledgeAlert s).totalLiters = s.totalLiters ∧
    (acknowledgeAlert s).labels = s.labels ∧
    (acknowledgeAlert s).series = s.series ∧
    (acknowledgeAlert s).forceLeak = s.forceLeak ∧
    (s.leakDetected = false → s.highCount = 0 → acknowledgeAlert s = s) := by
  refine ⟨rfl, rfl, rfl, rfl, rfl, rfl, rfl, ?_⟩
  intro hL hC
  cases s
  simp_all [acknowledgeAlert]

/-- C8 (witness): acknowledging on the unflagged initial state is a no-op. -/
theorem C8_acknowledgeAlert_witness :
    initState.leakDetected = false ∧ initState.highCount = 0 ∧
    acknowledgeAlert initState = initState :=
  ⟨rfl, rfl, (C8_acknowledgeAlert_frame initState).2.2.2.2.2.2.2 rfl rfl⟩

/-- C9: from any unflagged state with zero count and forced-leak mode on,
every forced-mode flow is at least 11 and hence above the threshold 8, so
for all draws in `[0, 1)` the flag is still clear after one and after two
ticks and set after exactly the third tick. -/
theorem C9_forced_mode_flags (s : AppState) (q1 q2 q3 : ℚ) (ts1 ts2 ts3 : String)
    (hL : s.leakDetected = false) (hC : s.highCount = 0) (hF : s.forceLeak = true)
    (hq1 : 0 ≤ q1) (hq1b : q1 < 1) (hq2 : 0 ≤ q2) (hq2b : q2 < 1)
    (hq3 : 0 ≤ q3) (hq3b : q3 < 1) :
    11 ≤ genFlow true q1 ∧ LEAK_THRESHOLD < genFlow true q1 ∧
    (tick s q1 ts1).leakDetected = false ∧
    (tick (tick s q1 ts1) q2 ts2).leakDetected = false ∧
    (tick (tick (tick s q1 ts1) q2 ts2) q3 ts3).leakDetected = true := by
  have f1 : (tick s q1 ts1).forceLeak = true := by rw [tick_forceLeak, hF]
  have f2 : (tick (tick s q1 ts1) q2 ts2).forceLeak = true := by rw [tick_forceLeak, f1]
  have g1 : LEAK_THRESHOLD < genFlow s.forceLeak q1 := by
    rw [hF]; exact genFlow_true_high q1 hq1
  have g2 : LEAK_THRESHOLD < genFlow (tick s q1 ts1).forceLeak q2 := by
    rw [f1]; exact genFlow_true_high q2 hq2
  have g3 : LEAK_THRESHOLD < genFlow (tick (tick s q1 ts1) q2 ts2).forceLeak q3 := by
    rw [f2]; exact genFlow_true_high q3 hq3
  have hc1 : (tick s q1 ts1).highCount = 1 := by
    rw [tick_highCount, if_pos g1, hC]
  have hc2 : (tick (tick s q1 ts1) q2 ts2).highCount = 2 := by
    rw [tick_highCount, if_pos g2, hc1]
  have hc3 : (tick (tick (tick s q1 ts1) q2 ts2) q3 ts3).highCount = 3 := by
    rw [tick_highCount, if_pos g3, hc2]
  have ld1 : (tick s q1 ts1).leakDetected = false := by
    rw [tick_leakDetected, hc1, if_neg (by decide), hL]
  have ld2 : (tick (tick s q1 ts1) q2 ts2).leakDetected = false := by
    rw [tick_leakDetected, hc2, if_neg (by decide), ld1]
  have ld3 : (tick (tick (tick s q1 ts1) q2 ts2) q3 ts3).leakDetected = true := by
    rw [tick_leakDetected, hc3, if_pos (by decide)]
  exact ⟨(genFlow_true_bounds q1 hq1 hq1b).1, genFlow_true_high q1 hq1, ld1, ld2, ld3⟩

/-- C9 (witness): the three-tick escalation from the initial state with the
forced-leak toggle on, at the concrete draws 0, 0, 0. -/
theorem C9_forced_mode_flags_witness :
    ({ initState with forceLeak := true } : AppState).leakDetected = false ∧
    ({ initState with forceLeak := true } : AppState).highCount = 0 ∧
    ({ initState with forceLeak := true } : AppState).forceLeak = true ∧
    (tick (tick (tick { initState with forceLeak := true } 0 "a") 0 "b") 0 "c").leakDetected
      = true :=
  ⟨rfl, rfl, rfl,
   (C9_forced_mode_flags { initState with forceLeak := true } 0 0 0 "a" "b" "c"
      rfl rfl rfl (le_refl 0) zero_lt_one (le_refl 0) zero_lt_one
      (le_refl 0) zero_lt_one).2.2.2.2⟩

/-- C10: every operation keeps the timestamp-label sequence and the
flow-value sequence the same length: a tick pushes one element onto each
through the same bounded-push rule, and the two user actions either leave
both unchanged or clear both. -/
theorem C10_parallel_histories (s : AppState) (q : ℚ) (ts : String)
    (h : s.labels.length = s.series.length) :
    (tick s q ts).labels.length = (tick s q ts).series.length ∧
    (acknowledgeAlert s).labels.length = (acknowledgeAlert s).series.length ∧
    (resetDay s).labels.length = (resetDay s).series.length := by
  refine ⟨?_, h, rfl⟩
  rw [tick_labels, tick_series, pushCapped_length, pushCapped_length, h]

/-- C10 (witness): alignment preserved on one concrete tick from the
initial state, whose two history sequences are both empty. -/
theorem C10_parallel_histories_witness :
    initState.labels.length = initState.series.length ∧
    (tick initState 0 "t").labels.length = (tick initState 0 "t").series.length :=
  ⟨rfl, (C10_parallel_histories initState 0 "t" rfl).1⟩

end AquaSave
